import Mathlib

/-!
Verification of the evaluation engine and pattern-validator scoring model of
the coding-agent-benchmarks repository, as a shallow embedding in Lean.

The embedding follows `src/validators/patternValidator.ts`,
`src/evaluator.ts` and `src/utils/baselineManager.ts`.  External effects are
made explicit parameters:

* the filesystem seen by the validator is a function `String → FileState`
  (`absent` models `fs.existsSync(p) = false`; `unreadable e` a file that
  exists but whose `readFileSync` throws an error rendering as the string
  `e`; `readable c` a file read successfully with content `c`);
* the Node `path` library functions used (`path.resolve`, `path.basename`,
  `path.relative(workspaceRoot, ·)`) are an abstract `PathLib` record;
* a JavaScript `RegExp` is modelled as its pure `test` predicate together
  with its `source` string;
* the generation adapter is a function from the resolved timeout to an
  outcome (the returned file list, or the stringified thrown error);
* the baseline store is a function from the (adapter, model, scenarioId)
  key to what the store holds there (missing file / unparseable file /
  parsed record).

JavaScript numbers are modelled as real numbers; the severity-weight table
is kept in `ℚ` so that weight sums are exact.
-/

namespace Benchmarks

/-- Severity levels for test scenarios (`types.ts`). -/
inductive Severity
  | critical
  | major
  | minor
deriving DecidableEq

/-- A JavaScript `RegExp`, modelled by its pure `test` predicate and its
`source` string. -/
structure RegExpPat where
  test : String → Bool
  source : String

/-- JavaScript `String.prototype.includes`: substring containment. -/
def jsIncludes (s search : String) : Bool :=
  decide (search.toList <:+: s.toList)

/-- A single rule breach (`types.ts` `Violation`). -/
structure Violation where
  type : String
  message : String
  file : Option String := none
  line : Option Nat := none
  severity : Severity
  details : Option String := none
deriving DecidableEq

/-- One validator's verdict for one scenario (`types.ts`
`ValidationResult`). -/
structure ValidationResult where
  passed : Bool
  score : ℝ
  violations : List Violation
  validatorType : String
  error : Option String := none

/-- Pattern rule configuration (`types.ts` `PatternValidation`).  `none`
models an absent (`undefined`) list, `some []` a present empty list: the
two are distinguished because JavaScript treats an empty array as truthy. -/
structure PatternValidation where
  forbiddenPatterns : Option (List RegExpPat) := none
  requiredPatterns : Option (List RegExpPat) := none
  forbiddenImports : Option (List String) := none
  requiredImports : Option (List String) := none
  forbiddenFileNamePatterns : Option (List RegExpPat) := none
  requiredFileNamePatterns : Option (List RegExpPat) := none

/-- `types.ts` `ValidationStrategy`, restricted to the pattern-rule
sub-configuration used by the pattern validator (the judge and lint
sub-configurations are consumed only by the excluded collaborators). -/
structure ValidationStrategy where
  patterns : Option PatternValidation := none

/-- `types.ts` `TestScenario`.  `timeout = none` models `undefined`
(unset), `some none` an explicit `null` (no timeout), `some (some n)` a
number of milliseconds. -/
structure TestScenario where
  id : String
  category : String := ""
  severity : Severity
  tags : List String := []
  description : String := ""
  prompt : String := ""
  validationStrategy : ValidationStrategy
  timeout : Option (Option Nat) := none

/-- State of one path on disk as seen by the validator. -/
inductive FileState
  | absent
  | unreadable (e : String)
  | readable (content : String)

/-- Whether `readFileSync` would throw on this path. -/
def FileState.isUnreadable : FileState → Bool
  | .unreadable _ => true
  | _ => false

/-- Whether the file exists and is read successfully. -/
def FileState.isReadable : FileState → Bool
  | .readable _ => true
  | _ => false

/-- Abstract Node `path` library: `resolve` is `workspaceUtils.resolveFilePaths`
applied to one path (absolute paths pass through, relative ones are resolved
against the workspace root), `basename` is `path.basename`, and `relative`
is `path.relative(workspaceRoot, ·)`. -/
structure PathLib where
  resolve : String → String
  basename : String → String
  relative : String → String

/-- `workspaceUtils.resolveFilePaths`: map every listed file to its
absolute path. -/
def resolveFilePaths (pl : PathLib) (files : List String) : List String :=
  files.map pl.resolve

namespace PatternValidator

/-- Severity weight table from `PatternValidator.calculateScore`
(`patternValidator.ts` lines 218-222). -/
def severityWeight : Severity → ℚ
  | .critical => 1
  | .major => 7/10
  | .minor => 3/10

/-- `totalWeight` accumulator from `calculateScore` (lines 224-226):
`violations.reduce((sum, v) => sum + weights[v.severity], 0)`. -/
def totalWeight (violations : List Violation) : ℚ :=
  violations.foldl (fun sum v => sum + severityWeight v.severity) 0

/-- `PatternValidator.calculateScore` (lines 212-233): 1.0 when there are
no violations, otherwise `Math.max(0, Math.min(1, Math.exp(-totalWeight)))`. -/
noncomputable def calculateScore (violations : List Violation) : ℝ :=
  if violations.length = 0 then 1
  else max 0 (min 1 (Real.exp (-(totalWeight violations : ℝ))))

/-- Index-carrying loop of `findPatternMatches` (lines 176-184): scan the
lines, recording `(i + 1, line.trim())` for every line the pattern tests
positive on, where `i` is the 0-based index. -/
def findPatternMatchesGo (p : RegExpPat) : List String → Nat → List (Nat × String)
  | [], _ => []
  | l :: ls, i =>
    if p.test l then (i + 1, l.trim) :: findPatternMatchesGo p ls (i + 1)
    else findPatternMatchesGo p ls (i + 1)

/-- `PatternValidator.findPatternMatches` (lines 169-187): all
(1-based line number, trimmed line text) pairs whose line matches. -/
def findPatternMatches (text : String) (p : RegExpPat) : List (Nat × String) :=
  findPatternMatchesGo p (text.splitOn "\n") 0

/-- Index-carrying loop of `findLineWithText` (lines 196-205). -/
def findLineWithTextGo (search : String) : List String → Nat → Option (Nat × String)
  | [], _ => none
  | l :: ls, i =>
    if jsIncludes l search then some (i + 1, l.trim)
    else findLineWithTextGo search ls (i + 1)

/-- `PatternValidator.findLineWithText` (lines 192-206): first
(1-based line number, trimmed line text) whose line contains `search`. -/
def findLineWithText (text search : String) : Option (Nat × String) :=
  findLineWithTextGo search (text.splitOn "\n") 0

/-- The violations pushed for one successfully read file in
`PatternValidator.validate` (lines 51-142), in source order across the six
rule categories.  `absolutePaths` is the full resolved file list, consulted
by the required-file-name check (lines 129-142). -/
def fileViolations (pl : PathLib) (pats : PatternValidation)
    (absolutePaths : List String) (sev : Severity)
    (relativePath fileName content : String) : List Violation :=
  (match pats.forbiddenPatterns with
   | none => []
   | some ps => ps.flatMap fun p =>
       (findPatternMatches content p).map fun m =>
         { type := "pattern"
           message := "Forbidden pattern found: " ++ p.source
           file := some relativePath
           line := some m.1
           severity := sev
           details := some ("Matched: \"" ++ m.2 ++ "\"") })
  ++
  (match pats.requiredPatterns with
   | none => []
   | some ps => ps.flatMap fun p =>
       if p.test content then []
       else [{ type := "pattern"
               message := "Required pattern not found: " ++ p.source
               file := some relativePath
               severity := sev }])
  ++
  (match pats.forbiddenImports with
   | none => []
   | some imps => imps.flatMap fun imp =>
       if jsIncludes content imp then
         [{ type := "pattern"
            message := "Forbidden import found: " ++ imp
            file := some relativePath
            line := (findLineWithText content imp).map Prod.fst
            severity := sev
            details := (findLineWithText content imp).map
              fun li => "Line: \"" ++ li.2 ++ "\"" }]
       else [])
  ++
  (match pats.requiredImports with
   | none => []
   | some imps => imps.flatMap fun imp =>
       if jsIncludes content imp then []
       else [{ type := "pattern"
               message := "Required import not found: " ++ imp
               file := some relativePath
               severity := sev }])
  ++
  (match pats.forbiddenFileNamePatterns with
   | none => []
   | some ps => ps.flatMap fun p =>
       if p.test fileName then
         [{ type := "pattern"
            message := "Forbidden file name pattern: " ++ p.source
            file := some relativePath
            severity := sev
            details := some ("File name: \"" ++ fileName ++ "\"") }]
       else [])
  ++
  (match pats.requiredFileNamePatterns with
   | none => []
   | some ps =>
       if absolutePaths.any (fun pth => ps.any fun p => p.test (pl.basename pth)) then []
       else [{ type := "pattern"
               message := "Required file name pattern not found: "
                 ++ String.intercalate ", " (ps.map RegExpPat.source)
               severity := sev }])

/-- The per-file loop of `PatternValidator.validate` (lines 41-163): skip
absent files, return the validator-failure result as soon as a file read
throws (discarding the violations accumulated so far), otherwise accumulate
the file's violations; when the list is exhausted, score the accumulated
violations. -/
noncomputable def validateGo (fsys : String → FileState) (pl : PathLib)
    (pats : PatternValidation) (absolutePaths : List String) (sev : Severity) :
    List String → List Violation → ValidationResult
  | [], violations =>
    { passed := violations.length == 0
      score := calculateScore violations
      violations := violations
      validatorType := "pattern" }
  | p :: rest, violations =>
    match fsys p with
    | .absent => validateGo fsys pl pats absolutePaths sev rest violations
    | .unreadable e =>
      { passed := false
        score := 0
        violations := []
        validatorType := "pattern"
        error := some ("Failed to read file " ++ p ++ ": " ++ e) }
    | .readable content =>
      validateGo fsys pl pats absolutePaths sev rest
        (violations ++ fileViolations pl pats absolutePaths sev
          (pl.relative p) (pl.basename p) content)

/-- `PatternValidator.validate` (lines 21-164), with the filesystem and the
path library as explicit parameters.  When no `patterns` object is
configured the validator skips with the sentinel score -1 (lines 28-35). -/
noncomputable def validate (fsys : String → FileState) (pl : PathLib)
    (files : List String) (scenario : TestScenario) : ValidationResult :=
  match scenario.validationStrategy.patterns with
  | none =>
    { passed := true, score := -1, violations := [], validatorType := "pattern" }
  | some pats =>
    validateGo fsys pl pats (resolveFilePaths pl files) scenario.severity
      (resolveFilePaths pl files) []

end PatternValidator

/-- Outcome of `adapter.generate`: the returned file list, or the
stringified thrown error (`String(error)` in the catch block). -/
inductive GenOutcome
  | ok (files : List String)
  | err (msg : String)

/-- `EvaluatorOptions` (`evaluator.ts` lines 21-29), restricted to the
fields read by `evaluateScenario`; `adapter` is kept as its identifier
string, the verbose flag only drives logging. -/
structure EvaluatorOptions where
  adapter : String
  model : Option String := none
  defaultTimeout : Option (Option Nat) := none
  saveBaseline : Bool := false
  compareBaseline : Bool := false

/-- Result of `BaselineManager.compareWithBaseline` (`baselineManager.ts`
lines 95-99). -/
structure BaselineComparison where
  baselineScore : ℝ
  delta : ℝ
  isImprovement : Bool

/-- `types.ts` `EvaluationResult`; the wall-clock `duration` field is not
modelled. -/
structure EvaluationResult where
  scenario : TestScenario
  passed : Bool
  score : ℝ
  validationResults : List ValidationResult
  violations : List Violation
  error : Option String := none
  baselineComparison : Option BaselineComparison := none

/-- `BaselineData` (`baselineManager.ts` lines 9-16); the wall-clock
`timestamp` field is not modelled. -/
structure BaselineData where
  scenarioId : String
  score : ℝ
  violations : List Violation
  adapter : String
  model : Option String := none

/-- What the baseline store holds at one (adapter, model, scenarioId) key:
no file on disk, a file whose `JSON.parse` throws, or a parsed record. -/
inductive StoredBaseline
  | missing
  | corrupt
  | parsed (b : BaselineData)

/-- `BaselineManager.loadBaseline` (lines 68-86): null both when the file
is missing and when reading or parsing it throws. -/
def loadBaseline (store : String → String → String → StoredBaseline)
    (adapter model scenarioId : String) : Option BaselineData :=
  match store adapter model scenarioId with
  | .missing => none
  | .corrupt => none
  | .parsed b => some b

/-- `BaselineManager.compareWithBaseline` (lines 91-114): null when no
baseline loads; otherwise `delta = result.score - baseline.score` and
`isImprovement = delta > 0`. -/
noncomputable def compareWithBaseline
    (store : String → String → String → StoredBaseline)
    (result : EvaluationResult) (adapter model : String) :
    Option BaselineComparison :=
  match loadBaseline store adapter model result.scenario.id with
  | none => none
  | some baseline =>
    some { baselineScore := baseline.score
           delta := result.score - baseline.score
           isImprovement := decide (result.score - baseline.score > 0) }

/-- Timeout resolution in `Evaluator.evaluateScenario` (`evaluator.ts`
lines 120-131): the scenario's own timeout when set (`null` stops the
fallthrough and means no timeout), else the configured default, else the
built-in 120000 ms. -/
def resolveTimeout (scenarioTimeout optionsDefault : Option (Option Nat)) :
    Option Nat :=
  match scenarioTimeout with
  | some t => t
  | none =>
    match optionsDefault with
    | some t => t
    | none => some 120000

/-- The baseline-comparison step of `evaluateScenario` (lines 198-208):
attach the comparison to the result when requested and available.  The
`saveBaseline` step (lines 210-217) writes the store and returns the
result unchanged, so it is not modelled. -/
noncomputable def applyBaseline (opts : EvaluatorOptions)
    (store : String → String → String → StoredBaseline)
    (result : EvaluationResult) : EvaluationResult :=
  if opts.compareBaseline then
    match compareWithBaseline store result opts.adapter (opts.model.getD "default") with
    | some comparison => { result with baselineComparison := some comparison }
    | none => result
  else result

/-- `Evaluator.evaluateScenario` (lines 106-246) with the generation
adapter, the three validators (pattern, LLM judge, ESLint — the latter two
are excluded collaborators) and the baseline store as explicit parameters.
Generation failure is caught at the scenario boundary (lines 220-245):
score 0, passed false, no validator runs, and one violation is synthesized
when the error message contains the timeout indicator. -/
noncomputable def evaluateScenario (opts : EvaluatorOptions)
    (generate : Option Nat → GenOutcome)
    (patternV llmV eslintV : List String → TestScenario → ValidationResult)
    (store : String → String → String → StoredBaseline)
    (scenario : TestScenario) : EvaluationResult :=
  match generate (resolveTimeout scenario.timeout opts.defaultTimeout) with
  | .ok generatedFiles =>
    let patternResult := patternV generatedFiles scenario
    let llmResult := llmV generatedFiles scenario
    let eslintResult := eslintV generatedFiles scenario
    let validationResults := [patternResult, llmResult, eslintResult]
    let activeResults := validationResults.filter fun r => decide (r.score ≥ 0)
    let overallScore : ℝ :=
      if activeResults.length > 0 then
        activeResults.foldl (fun sum r => sum + r.score) 0 / activeResults.length
      else 0
    let allViolations := validationResults.flatMap ValidationResult.violations
    let passed := decide (overallScore ≥ 0.8) && (allViolations.length == 0)
    applyBaseline opts store
      { scenario := scenario
        passed := passed
        score := overallScore
        validationResults := validationResults
        violations := allViolations }
  | .err msg =>
    let isTimeout := jsIncludes msg "timed out"
    let violations : List Violation :=
      if isTimeout then
        [{ type := "pattern"
           message := "Code generation timed out"
           severity := scenario.severity
           details := some msg }]
      else []
    { scenario := scenario
      passed := false
      score := 0
      validationResults := []
      violations := violations
      error := some ("Evaluation failed: " ++ msg) }

/-- A validator collaborator returning a constant result. -/
def constValidator (r : ValidationResult) :
    List String → TestScenario → ValidationResult :=
  fun _ _ => r

/-- The skip result a not-applicable validator returns. -/
def skipResult (t : String) : ValidationResult :=
  { passed := true, score := -1, violations := [], validatorType := t }

/-- Identity path library for concrete instances: paths are already
absolute and are their own basenames. -/
def idPaths : PathLib := { resolve := id, basename := id, relative := id }

/-- A regexp whose test never matches. -/
def noMatch (src : String) : RegExpPat :=
  { test := fun _ => false, source := src }

/-- A regexp whose test always matches. -/
def matchAll (src : String) : RegExpPat :=
  { test := fun _ => true, source := src }

/-- A sample violation. -/
def sampleViolation (sev : Severity) : Violation :=
  { type := "pattern", message := "sample", severity := sev }

/-- A scenario carrying the given pattern configuration. -/
def mkScenario (pats : Option PatternValidation) (sev : Severity) :
    TestScenario :=
  { id := "s", severity := sev, validationStrategy := { patterns := pats } }

/-- A validator result with a fixed score and violation list. -/
noncomputable def constResult (s : ℝ) (vl : List Violation) : ValidationResult :=
  { passed := vl.length == 0, score := s, violations := vl
    validatorType := "pattern" }

/-- Evaluator options with no baseline interaction. -/
def opts0 : EvaluatorOptions := { adapter := "copilot" }

/-- An empty baseline store. -/
def store0 : String → String → String → StoredBaseline := fun _ _ _ => .missing

/-- The single violation the required-file-name check pushes when no file
basename matches (its message lists every configured pattern source). -/
def requiredFileNameViolation (ps : List RegExpPat) (sev : Severity) : Violation :=
  { type := "pattern"
    message := "Required file name pattern not found: "
      ++ String.intercalate ", " (ps.map RegExpPat.source)
    severity := sev }

/-- A filesystem on which every path is a readable empty file. -/
def allReadable : String → FileState := fun _ => .readable ""

/-- A generation adapter that succeeds with the given file list whatever
timeout it is handed. -/
def okGen (files : List String) : Option Nat → GenOutcome :=
  fun _ => .ok files

/-- A generation adapter that throws, with the given stringified error,
whatever timeout it is handed. -/
def errGen (msg : String) : Option Nat → GenOutcome :=
  fun _ => .err msg

/-- A pattern configuration with only required file-name patterns. -/
def reqOnlyPats (ps : List RegExpPat) : PatternValidation :=
  { requiredFileNamePatterns := some ps }

/-- A single never-matching required file-name pattern. -/
def noMatchList : List RegExpPat := [noMatch "needsfile"]

/-- Scenario configuring only the required file-name rule above. -/
def sc5 : TestScenario := mkScenario (some (reqOnlyPats noMatchList)) .major

/-- Scenario whose patterns object is present but has every rule list
absent. -/
def sc6 : TestScenario := mkScenario (some {}) .critical

/-- A filesystem with one readable file and one file that exists but whose
read throws. -/
def fsys10 : String → FileState := fun p =>
  if p = "good.ts" then .readable "bad line"
  else if p = "locked.ts" then .unreadable "EACCES: permission denied"
  else .absent

/-- A forbidden-pattern configuration that matches every line. -/
def pats10 : PatternValidation := { forbiddenPatterns := some [matchAll "bad"] }

/-- Scenario carrying `pats10`. -/
def sc10 : TestScenario := mkScenario (some pats10) .critical

/-- A stored baseline record with score 0.5. -/
noncomputable def baseline05 : BaselineData :=
  { scenarioId := "s", score := 0.5, violations := [], adapter := "x" }

/-- A current evaluation result with score 0.5. -/
noncomputable def result05 : EvaluationResult :=
  { scenario := mkScenario none .critical, passed := false, score := 0.5
    validationResults := [], violations := [] }

/-- A current evaluation result with score 0.7. -/
noncomputable def result07 : EvaluationResult :=
  { scenario := mkScenario none .critical, passed := false, score := 0.7
    validationResults := [], violations := [] }

lemma foldl_add_map {α M : Type*} [AddCommMonoid M] (f : α → M) (init : M)
    (l : List α) :
    l.foldl (fun s a => s + f a) init = init + (l.map f).sum := by
  induction l generalizing init with
  | nil => simp
  | cons x xs ih => simp [List.foldl_cons, ih, add_assoc]

namespace PatternValidator

lemma totalWeight_eq_sum (vs : List Violation) :
    totalWeight vs = (vs.map fun v => severityWeight v.severity).sum := by
  simpa using foldl_add_map (fun v => severityWeight v.severity) 0 vs

lemma severityWeight_nonneg (s : Severity) : 0 ≤ severityWeight s := by
  cases s <;> norm_num [severityWeight]

lemma totalWeight_nonneg (vs : List Violation) : 0 ≤ totalWeight vs := by
  rw [totalWeight_eq_sum]
  apply List.sum_nonneg
  intro x hx
  rw [List.mem_map] at hx
  obtain ⟨v, _, rfl⟩ := hx
  exact severityWeight_nonneg _

/-- The defensive clamp in `calculateScore` never fires: the score is
always exactly `exp (-totalWeight)`. -/
lemma calculateScore_eq_exp (vs : List Violation) :
    calculateScore vs = Real.exp (-(totalWeight vs : ℝ)) := by
  unfold calculateScore
  split
  · next h =>
      have hnil : vs = [] := List.length_eq_zero.mp h
      subst hnil
      simp [totalWeight]
  · next h =>
      have h1 : Real.exp (-(totalWeight vs : ℝ)) ≤ 1 := by
        rw [Real.exp_le_one_iff]
        simp only [neg_nonpos]
        exact_mod_cast totalWeight_nonneg vs
      have h2 : (0:ℝ) ≤ Real.exp (-(totalWeight vs : ℝ)) := (Real.exp_pos _).le
      rw [min_eq_right h1, max_eq_right h2]

lemma calculateScore_nonneg (vs : List Violation) : 0 ≤ calculateScore vs := by
  rw [calculateScore_eq_exp]
  exact (Real.exp_pos _).le

end PatternValidator

/-- The baseline-comparison step never alters the verdict fields of the
result it decorates. -/
lemma applyBaseline_fields (opts : EvaluatorOptions)
    (store : String → String → String → StoredBaseline)
    (r : EvaluationResult) :
    (applyBaseline opts store r).passed = r.passed ∧
    (applyBaseline opts store r).score = r.score ∧
    (applyBaseline opts store r).validationResults = r.validationResults ∧
    (applyBaseline opts store r).violations = r.violations ∧
    (applyBaseline opts store r).error = r.error := by
  unfold applyBaseline
  split
  · split <;> exact ⟨rfl, rfl, rfl, rfl, rfl⟩
  · exact ⟨rfl, rfl, rfl, rfl, rfl⟩

/-- Unfolding of `evaluateScenario` when generation succeeds. -/
lemma evaluateScenario_ok (opts : EvaluatorOptions)
    (pv lv ev : List String → TestScenario → ValidationResult)
    (store : String → String → String → StoredBaseline)
    (sc : TestScenario) (files : List String)
    (rs active : List ValidationResult) (overall : ℝ) (allV : List Violation)
    (hrs : rs = [pv files sc, lv files sc, ev files sc])
    (hactive : active = rs.filter fun r => decide (r.score ≥ 0))
    (hoverall : overall = if active.length > 0 then
        active.foldl (fun sum r => sum + r.score) 0 / (active.length : ℝ) else 0)
    (hallV : allV = rs.flatMap ValidationResult.violations) :
    evaluateScenario opts (okGen files) pv lv ev store sc
      = applyBaseline opts store
          { scenario := sc
            passed := decide (overall ≥ 0.8) && (allV.length == 0)
            score := overall
            validationResults := rs
            violations := allV } := by
  subst hrs hactive hoverall hallV
  rfl

/-- Claim C1: the Pattern Validator's score is exactly 1.0 on an empty
violation list and otherwise `exp (-totalWeight)` clamped to [0, 1], where
`totalWeight` sums the severity weights (critical 1.0, major 0.7,
minor 0.3) over all violations, repeats counted individually; the clamp is
moreover shown to be the identity here. -/
theorem c1_pattern_scorer (vs : List Violation) :
    PatternValidator.calculateScore [] = 1 ∧
    PatternValidator.calculateScore vs
      = max 0 (min 1 (Real.exp (-(PatternValidator.totalWeight vs : ℝ)))) ∧
    PatternValidator.calculateScore vs
      = Real.exp (-(PatternValidator.totalWeight vs : ℝ)) ∧
    PatternValidator.totalWeight vs
      = (vs.map fun v => PatternValidator.severityWeight v.severity).sum ∧
    PatternValidator.severityWeight .critical = 1 ∧
    PatternValidator.severityWeight .major = 7/10 ∧
    PatternValidator.severityWeight .minor = 3/10 := by
  have h1 : Real.exp (-(PatternValidator.totalWeight vs : ℝ)) ≤ 1 := by
    rw [Real.exp_le_one_iff]
    simp only [neg_nonpos]
    exact_mod_cast PatternValidator.totalWeight_nonneg vs
  have h2 : (0:ℝ) ≤ Real.exp (-(PatternValidator.totalWeight vs : ℝ)) :=
    (Real.exp_pos _).le
  refine ⟨?_, ?_, PatternValidator.calculateScore_eq_exp vs,
    PatternValidator.totalWeight_eq_sum vs, rfl, rfl, rfl⟩
  · simp [PatternValidator.calculateScore]
  · rw [PatternValidator.calculateScore_eq_exp, min_eq_right h1, max_eq_right h2]

lemma skipResult_score (t : String) : (skipResult t).score = -1 := rfl

lemma skipResult_violations (t : String) : (skipResult t).violations = [] := rfl

lemma constResult_score (s : ℝ) (vl : List Violation) :
    (constResult s vl).score = s := rfl

lemma constResult_violations (s : ℝ) (vl : List Violation) :
    (constResult s vl).violations = vl := rfl

lemma applyBaseline_opts0 (store : String → String → String → StoredBaseline)
    (r : EvaluationResult) : applyBaseline opts0 store r = r := rfl

/-- A result with non-negative score survives the active filter. -/
lemma filter_active_cons_pos (r : ValidationResult) (l : List ValidationResult)
    (h : 0 ≤ r.score) :
    List.filter (fun x => decide (x.score ≥ 0)) (r :: l)
      = r :: List.filter (fun x => decide (x.score ≥ 0)) l := by
  have hd : decide (r.score ≥ 0) = true := decide_eq_true h
  simp only [List.filter_cons, hd, if_true]

/-- A result with negative score is dropped by the active filter. -/
lemma filter_active_cons_neg (r : ValidationResult) (l : List ValidationResult)
    (h : r.score < 0) :
    List.filter (fun x => decide (x.score ≥ 0)) (r :: l)
      = List.filter (fun x => decide (x.score ≥ 0)) l := by
  have hd : decide (r.score ≥ 0) = false := decide_eq_false (not_le.mpr h)
  simp only [List.filter_cons, hd]
  simp

/-- Aggregation outcome when one validator is active with score `s` and
violations `vl`, and the other two report the skip sentinel. -/
lemma eval_one_active (s : ℝ) (vl : List Violation) (t1 t2 : String)
    (files : List String) (sc : TestScenario) (hs : 0 ≤ s) :
    evaluateScenario opts0 (okGen files)
      (constValidator (constResult s vl))
      (constValidator (skipResult t1)) (constValidator (skipResult t2))
      store0 sc
      = { scenario := sc
          passed := decide (s ≥ 0.8) && (vl.length == 0)
          score := s
          validationResults := [constResult s vl, skipResult t1, skipResult t2]
          violations := vl } := by
  rw [evaluateScenario_ok opts0 _ _ _ _ _ _ _ _ _ _ rfl rfl rfl rfl]
  simp only [constValidator]
  rw [filter_active_cons_pos _ _ (by rw [constResult_score]; exact hs),
    filter_active_cons_neg _ _ (by rw [skipResult_score]; norm_num),
    filter_active_cons_neg _ _ (by rw [skipResult_score]; norm_num),
    List.filter_nil, applyBaseline_opts0]
  simp [constResult_score, constResult_violations, skipResult_violations,
    EvaluationResult.mk.injEq]

/-- Claim C2: with generation succeeding, `passed` is true iff the overall
score is at least 0.8 and the flattened violation list is empty; an overall
score of 0.8 with no violations passes, 0.79999 with no violations does
not, and 0.95 with one remaining violation does not. -/
theorem c2_dual_gate :
    (∀ (opts : EvaluatorOptions)
      (pv lv ev : List String → TestScenario → ValidationResult)
      (store : String → String → String → StoredBaseline)
      (sc : TestScenario) (files : List String),
      ((evaluateScenario opts (okGen files) pv lv ev store sc).passed = true
        ↔ 0.8 ≤ (evaluateScenario opts (okGen files) pv lv ev store sc).score
          ∧ (evaluateScenario opts (okGen files) pv lv ev store sc).violations = []))
    ∧ ((evaluateScenario opts0 (okGen [])
        (constValidator (constResult 0.95 [sampleViolation .minor]))
        (constValidator (skipResult "llm-judge"))
        (constValidator (skipResult "eslint")) store0
        (mkScenario none .critical)).passed = false
      ∧ (evaluateScenario opts0 (okGen [])
        (constValidator (constResult 0.95 [sampleViolation .minor]))
        (constValidator (skipResult "llm-judge"))
        (constValidator (skipResult "eslint")) store0
        (mkScenario none .critical)).score = 0.95)
    ∧ (evaluateScenario opts0 (okGen [])
        (constValidator (constResult 0.8 []))
        (constValidator (skipResult "llm-judge"))
        (constValidator (skipResult "eslint")) store0
        (mkScenario none .critical)).passed = true
    ∧ (evaluateScenario opts0 (okGen [])
        (constValidator (constResult 0.79999 []))
        (constValidator (skipResult "llm-judge"))
        (constValidator (skipResult "eslint")) store0
        (mkScenario none .critical)).passed = false := by
  refine ⟨?_, ⟨?_, ?_⟩, ?_, ?_⟩
  · intro opts pv lv ev store sc files
    rw [evaluateScenario_ok opts _ _ _ _ _ _ _ _ _ _ rfl rfl rfl rfl]
    obtain ⟨hp, hsc, -, hv, -⟩ := applyBaseline_fields opts store _
    rw [hp, hsc, hv]
    simp [Bool.and_eq_true, decide_eq_true_eq, List.length_eq_zero, ge_iff_le]
  · rw [eval_one_active 0.95 [sampleViolation .minor] _ _ _ _ (by norm_num)]
    simp
  · rw [eval_one_active 0.95 [sampleViolation .minor] _ _ _ _ (by norm_num)]
  · rw [eval_one_active 0.8 [] _ _ _ _ (by norm_num)]
    simp only [List.length_nil, Nat.zero_eq]
    simp only [beq_self_eq_true, Bool.and_true]
    rw [decide_eq_true_eq]
  · rw [eval_one_active 0.79999 [] _ _ _ _ (by norm_num)]
    simp only [List.length_nil, beq_self_eq_true, Bool.and_true]
    rw [decide_eq_false_iff_not]
    norm_num

/-- Claim C3: with generation succeeding, the overall score is the mean of
exactly the validator scores that are ≥ 0 (the skip sentinel -1 never
contributes), and is 0 — not NaN, not undefined — when every validator is
skipped. -/
theorem c3_overall_mean :
    (∀ (opts : EvaluatorOptions)
      (pv lv ev : List String → TestScenario → ValidationResult)
      (store : String → String → String → StoredBaseline)
      (sc : TestScenario) (files : List String),
      (evaluateScenario opts (okGen files) pv lv ev store sc).score
        = (let rs := [pv files sc, lv files sc, ev files sc]
           let active := rs.filter fun r => decide (r.score ≥ 0)
           if active.length > 0 then
             (active.map ValidationResult.score).sum / (active.length : ℝ)
           else 0))
    ∧ (∀ (opts : EvaluatorOptions)
      (store : String → String → String → StoredBaseline)
      (sc : TestScenario) (files : List String) (t1 t2 t3 : String),
      (evaluateScenario opts (okGen files)
        (constValidator (skipResult t1)) (constValidator (skipResult t2))
        (constValidator (skipResult t3)) store sc).score = 0) := by
  constructor
  · intro opts pv lv ev store sc files
    rw [evaluateScenario_ok opts _ _ _ _ _ _ _ _ _ _ rfl rfl rfl rfl]
    obtain ⟨-, hsc, -, -, -⟩ := applyBaseline_fields opts store _
    rw [hsc]
    simp only [foldl_add_map, zero_add]
  · intro opts store sc files t1 t2 t3
    rw [evaluateScenario_ok opts _ _ _ _ _ _ _ _ _ _ rfl rfl rfl rfl]
    obtain ⟨-, hsc, -, -, -⟩ := applyBaseline_fields opts store _
    rw [hsc]
    simp only [constValidator]
    rw [filter_active_cons_neg _ _ (by rw [skipResult_score]; norm_num),
      filter_active_cons_neg _ _ (by rw [skipResult_score]; norm_num),
      filter_active_cons_neg _ _ (by rw [skipResult_score]; norm_num),
      List.filter_nil]
    simp

/-- Claim C4: the generation timeout is the scenario's own timeout when
set (an explicit null meaning wait indefinitely), else the batch default
when set (its null likewise meaning no timeout), else the built-in
120000 ms; scenario-unset with batch default 5000 gives 5000, scenario
null with batch default 5000 gives no timeout; `evaluateScenario` consults
its generation adapter only at this resolved timeout. -/
theorem c4_timeout_resolution :
    (∀ (t : Option Nat) (d : Option (Option Nat)), resolveTimeout (some t) d = t)
    ∧ (∀ t : Option Nat, resolveTimeout none (some t) = t)
    ∧ resolveTimeout none none = some 120000
    ∧ resolveTimeout none (some (some 5000)) = some 5000
    ∧ resolveTimeout (some none) (some (some 5000)) = none
    ∧ (∀ (opts : EvaluatorOptions) (generate : Option Nat → GenOutcome)
      (pv lv ev : List String → TestScenario → ValidationResult)
      (store : String → String → String → StoredBaseline) (sc : TestScenario),
      evaluateScenario opts generate pv lv ev store sc
        = evaluateScenario opts
            (fun _ => generate (resolveTimeout sc.timeout opts.defaultTimeout))
            pv lv ev store sc) :=
  ⟨fun _ _ => rfl, fun _ => rfl, rfl, rfl, rfl, fun _ _ _ _ _ _ _ => rfl⟩

/-- Claim C8: when generation throws, `evaluateScenario` returns — without
running any validator — a result with score 0, passed false, an empty
validation-result list and a non-empty top-level error, synthesizing
exactly one violation iff the error message contains the timeout
indicator. -/
theorem c8_generation_failure (opts : EvaluatorOptions)
    (pv lv ev : List String → TestScenario → ValidationResult)
    (store : String → String → String → StoredBaseline)
    (sc : TestScenario) (msg : String) :
    evaluateScenario opts (errGen msg) pv lv ev store sc
      = { scenario := sc
          passed := false
          score := 0
          validationResults := []
          violations := if jsIncludes msg "timed out" then
              [{ type := "pattern", message := "Code generation timed out",
                 severity := sc.severity, details := some msg }]
            else []
          error := some ("Evaluation failed: " ++ msg) }
    ∧ ("Evaluation failed: " ++ msg) ≠ ""
    ∧ ((evaluateScenario opts (errGen msg) pv lv ev store sc).violations.length = 1
        ↔ jsIncludes msg "timed out" = true) := by
  refine ⟨rfl, ?_, ?_⟩
  · intro h
    have h2 : ("Evaluation failed: " ++ msg).length = 0 := by rw [h]; rfl
    rw [String.length_append] at h2
    have h3 : ("Evaluation failed: " : String).length = 19 := rfl
    omega
  · show (evaluateScenario opts (errGen msg) pv lv ev store sc).violations.length = 1
        ↔ jsIncludes msg "timed out" = true
    cases h : jsIncludes msg "timed out" <;>
      simp [evaluateScenario, errGen, h]

/-- Claim C9: `compareWithBaseline` returns null when the stored record is
missing or fails to parse; otherwise it reports the stored score, the delta
current minus baseline, and `isImprovement` exactly when the delta is
strictly positive — so a tie (delta 0) is not an improvement and a gain of
0.2 is. -/
theorem c9_baseline_compare :
    (∀ (store : String → String → String → StoredBaseline)
      (res : EvaluationResult) (a m : String),
      compareWithBaseline store res a m
        = match store a m res.scenario.id with
          | .missing => none
          | .corrupt => none
          | .parsed b => some { baselineScore := b.score
                                delta := res.score - b.score
                                isImprovement := decide (res.score - b.score > 0) })
    ∧ (∀ (b : BaselineData) (res : EvaluationResult) (a m : String),
      compareWithBaseline (fun _ _ _ => .parsed b) res a m
        = some { baselineScore := b.score
                 delta := res.score - b.score
                 isImprovement := decide (b.score < res.score) })
    ∧ (∀ (res : EvaluationResult) (a m : String),
      compareWithBaseline (fun _ _ _ => .missing) res a m = none)
    ∧ (∀ (res : EvaluationResult) (a m : String),
      compareWithBaseline (fun _ _ _ => .corrupt) res a m = none)
    ∧ compareWithBaseline (fun _ _ _ => .parsed baseline05) result07 "x" "default"
        = some { baselineScore := 0.5, delta := 0.2, isImprovement := true }
    ∧ compareWithBaseline (fun _ _ _ => .parsed baseline05) result05 "x" "default"
        = some { baselineScore := 0.5, delta := 0, isImprovement := false } := by
  refine ⟨?_, ?_, fun res a m => rfl, fun res a m => rfl, ?_, ?_⟩
  · intro store res a m
    cases h : store a m res.scenario.id <;>
      simp [compareWithBaseline, loadBaseline, h]
  · intro b res a m
    simp only [compareWithBaseline, loadBaseline]
    simp [BaselineComparison.mk.injEq, decide_eq_decide, sub_pos]
  · have hd : decide (result07.score - baseline05.score > 0) = true :=
      decide_eq_true (by norm_num [result07, baseline05])
    simp only [compareWithBaseline, loadBaseline, hd]
    simp [BaselineComparison.mk.injEq, baseline05, result07]
    norm_num
  · have hd : decide (result05.score - baseline05.score > 0) = false :=
      decide_eq_false (by norm_num [result05, baseline05])
    simp only [compareWithBaseline, loadBaseline, hd]
    simp [BaselineComparison.mk.injEq, baseline05, result05]

namespace PatternValidator

/-- The index-carrying scan equals filtering the index-annotated lines. -/
lemma findPatternMatchesGo_eq (p : RegExpPat) (lines : List String) (i : Nat) :
    findPatternMatchesGo p lines i
      = ((lines.enumFrom i).filter fun q => p.test q.2).map
          fun q => (q.1 + 1, q.2.trim) := by
  induction lines generalizing i with
  | nil => simp [findPatternMatchesGo]
  | cons l ls ih =>
    by_cases h : p.test l <;>
      simp [findPatternMatchesGo, List.enumFrom, List.filter_cons, h, ih]

/-- `findPatternMatches` records one (1-based line, trimmed text) pair per
matching line, in order. -/
lemma findPatternMatches_eq (text : String) (p : RegExpPat) :
    findPatternMatches text p
      = (((text.splitOn "\n").enum.filter fun q => p.test q.2).map
          fun q => (q.1 + 1, q.2.trim)) := by
  simpa [List.enum] using findPatternMatchesGo_eq p (text.splitOn "\n") 0

lemma countP_enumFrom {α : Type*} (p : α → Bool) (l : List α) (i : Nat) :
    (l.enumFrom i).countP (fun q => p q.2) = l.countP p := by
  induction l generalizing i with
  | nil => simp
  | cons x xs ih => simp [List.enumFrom, List.countP_cons, ih]

end PatternValidator

/-- Claim C7: with a forbidden content pattern configured, each line the
pattern matches yields exactly one violation carrying that line's 1-based
number, for every pattern value and every file content; in particular the
number of matches equals the number of matching lines. -/
theorem c7_forbidden_line_granularity :
    (∀ (fps : List RegExpPat) (pl : PathLib) (paths : List String)
      (sev : Severity) (rp fn c : String),
      PatternValidator.fileViolations pl { forbiddenPatterns := some fps }
          paths sev rp fn c
        = fps.flatMap fun p =>
            ((c.splitOn "\n").enum.filter fun q => p.test q.2).map fun q =>
              { type := "pattern"
                message := "Forbidden pattern found: " ++ p.source
                file := some rp
                line := some (q.1 + 1)
                severity := sev
                details := some ("Matched: \"" ++ q.2.trim ++ "\"") })
    ∧ (∀ (p : RegExpPat) (c : String),
      (PatternValidator.findPatternMatches c p).length
        = (c.splitOn "\n").countP p.test) := by
  constructor
  · intro fps pl paths sev rp fn c
    simp only [PatternValidator.fileViolations]
    simp [PatternValidator.findPatternMatches_eq, List.map_map, Function.comp]
    rfl
  · intro p c
    rw [PatternValidator.findPatternMatches_eq, List.length_map,
      ← List.countP_eq_length_filter]
    rw [show (c.splitOn "\n").enum = (c.splitOn "\n").enumFrom 0 from rfl,
      PatternValidator.countP_enumFrom]

namespace PatternValidator

/-- With only required file-name patterns configured and no resolved path
whose basename matches, each readable file contributes exactly the one
required-file-name violation. -/
lemma fileViolations_reqOnly (pl : PathLib) (ps : List RegExpPat)
    (A : List String) (sev : Severity) (rp fn c : String)
    (h : ∀ q ∈ A, ∀ p ∈ ps, p.test (pl.basename q) = false) :
    fileViolations pl (reqOnlyPats ps) A sev rp fn c
      = [requiredFileNameViolation ps sev] := by
  have hany : (A.any fun pth => ps.any fun p => p.test (pl.basename pth)) = false := by
    rw [Bool.eq_false_iff]
    intro hcontra
    rw [List.any_eq_true] at hcontra
    obtain ⟨pth, hpth, hp2⟩ := hcontra
    rw [List.any_eq_true] at hp2
    obtain ⟨p, hp, ht⟩ := hp2
    rw [h pth hpth p hp] at ht
    cases ht
  simp [fileViolations, reqOnlyPats, hany, requiredFileNameViolation]

/-- The per-file loop under the required-file-name-only configuration:
absent files are skipped, each readable file appends the single violation,
so the result carries one copy per readable file. -/
lemma validateGo_reqOnly (fsys : String → FileState) (pl : PathLib)
    (ps : List RegExpPat) (A : List String) (sev : Severity)
    (hA : ∀ q ∈ A, ∀ p ∈ ps, p.test (pl.basename q) = false) :
    ∀ (rest : List String) (acc : List Violation),
    (∀ q ∈ rest, (fsys q).isUnreadable = false) →
    (validateGo fsys pl (reqOnlyPats ps) A sev rest acc).violations
      = acc ++ List.replicate (rest.countP fun q => (fsys q).isReadable)
          (requiredFileNameViolation ps sev) := by
  intro rest
  induction rest with
  | nil => intro acc h; simp [validateGo]
  | cons q qs ih =>
    intro acc h
    have hq := h q (by simp)
    cases hfs : fsys q with
    | absent =>
      simp only [validateGo, hfs]
      rw [ih _ fun x hx => h x (by simp [hx])]
      simp [List.countP_cons, hfs, FileState.isReadable]
    | unreadable e =>
      rw [hfs] at hq
      simp [FileState.isUnreadable] at hq
    | readable c =>
      simp only [validateGo, hfs]
      rw [fileViolations_reqOnly pl ps A sev _ _ c hA,
        ih _ fun x hx => h x (by simp [hx])]
      rw [List.countP_cons]
      simp [hfs, FileState.isReadable, List.replicate_succ, List.append_assoc]

/-- With an all-absent patterns object every readable file contributes no
violations, so the loop finishes with its accumulator unchanged. -/
lemma validateGo_empty_pats (fsys : String → FileState) (pl : PathLib)
    (A : List String) (sev : Severity) :
    ∀ (rest : List String) (acc : List Violation),
    (∀ q ∈ rest, (fsys q).isUnreadable = false) →
    validateGo fsys pl {} A sev rest acc
      = { passed := acc.length == 0
          score := calculateScore acc
          violations := acc
          validatorType := "pattern" } := by
  intro rest
  induction rest with
  | nil => intro acc h; rfl
  | cons q qs ih =>
    intro acc h
    have hq := h q (by simp)
    cases hfs : fsys q with
    | absent =>
      simp only [validateGo, hfs]
      exact ih _ fun x hx => h x (by simp [hx])
    | unreadable e =>
      rw [hfs] at hq
      simp [FileState.isUnreadable] at hq
    | readable c =>
      simp only [validateGo, hfs]
      rw [show fileViolations pl {} A sev (pl.relative q) (pl.basename q) c
          = [] from rfl, List.append_nil]
      exact ih _ fun x hx => h x (by simp [hx])

/-- Every result of the per-file loop has a non-negative score: the error
path scores 0 and the final path scores `calculateScore`. -/
lemma validateGo_score_nonneg (fsys : String → FileState) (pl : PathLib)
    (pats : PatternValidation) (A : List String) (sev : Severity) :
    ∀ (rest : List String) (acc : List Violation),
    0 ≤ (validateGo fsys pl pats A sev rest acc).score := by
  intro rest
  induction rest with
  | nil => intro acc; exact calculateScore_nonneg acc
  | cons q qs ih =>
    intro acc
    cases hfs : fsys q with
    | absent => simp only [validateGo, hfs]; exact ih _
    | unreadable e => simp [validateGo, hfs]
    | readable c => simp only [validateGo, hfs]; exact ih _

/-- The per-file loop aborts with the validator-failure result at the
first unreadable file, whatever was accumulated before it. -/
lemma validateGo_unreadable (fsys : String → FileState) (pl : PathLib)
    (pats : PatternValidation) (A : List String) (sev : Severity)
    (bad e : String) (post : List String)
    (hbad : fsys bad = .unreadable e) :
    ∀ (pre : List String) (acc : List Violation),
    (∀ q ∈ pre, (fsys q).isUnreadable = false) →
    validateGo fsys pl pats A sev (pre ++ bad :: post) acc
      = { passed := false, score := 0, violations := []
          validatorType := "pattern"
          error := some ("Failed to read file " ++ bad ++ ": " ++ e) } := by
  intro pre
  induction pre with
  | nil => intro acc h; simp [validateGo, hbad]
  | cons q qs ih =>
    intro acc h
    have hq := h q (by simp)
    cases hfs : fsys q with
    | absent =>
      simp only [List.cons_append, validateGo, hfs]
      exact ih _ fun x hx => h x (by simp [hx])
    | unreadable e2 =>
      rw [hfs] at hq
      simp [FileState.isUnreadable] at hq
    | readable c =>
      simp only [List.cons_append, validateGo, hfs]
      exact ih _ fun x hx => h x (by simp [hx])

end PatternValidator

/-- Claim C5 counterexample: with one required file-name pattern configured
(and nothing else), two listed readable files none of whose basenames match
any pattern, the validator produces two violations — one per readable
file — not exactly one in total as claimed. -/
theorem c5_counterexample :
    (PatternValidator.validate allReadable idPaths ["a.ts", "b.ts"] sc5).violations.length = 2
    ∧ ((["a.ts", "b.ts"].all fun q =>
        noMatchList.all fun p => !(p.test (idPaths.basename q))) = true) := by
  constructor
  · rfl
  · rfl

/-- Claim C5 (amended): when required file-name patterns are configured as
the only rule category, every listed file is readable or absent, and no
resolved file's basename matches any configured pattern, the validator
emits one required-file-name violation — whose message lists all configured
patterns — per successfully read file; so the total is one exactly when
exactly one listed file is readable, not in general. -/
theorem c5_required_filename_per_file (fsys : String → FileState)
    (pl : PathLib) (ps : List RegExpPat) (sc : TestScenario)
    (files : List String)
    (hsc : sc.validationStrategy.patterns = some (reqOnlyPats ps))
    (hnm : ∀ q ∈ resolveFilePaths pl files, ∀ p ∈ ps,
      p.test (pl.basename q) = false)
    (hrd : ∀ q ∈ resolveFilePaths pl files, (fsys q).isUnreadable = false) :
    (PatternValidator.validate fsys pl files sc).violations
      = List.replicate
          ((resolveFilePaths pl files).countP fun q => (fsys q).isReadable)
          (requiredFileNameViolation ps sc.severity) := by
  simp only [PatternValidator.validate, hsc]
  rw [PatternValidator.validateGo_reqOnly fsys pl ps _ _ hnm _ [] hrd]
  simp

/-- Witness for the amended C5 at a concrete input: one readable file, one
never-matching pattern, exactly one violation. -/
theorem c5_required_filename_per_file_witness :
    (sc5.validationStrategy.patterns = some (reqOnlyPats noMatchList)
      ∧ (∀ q ∈ resolveFilePaths idPaths ["a.ts"], ∀ p ∈ noMatchList,
          p.test (idPaths.basename q) = false)
      ∧ (∀ q ∈ resolveFilePaths idPaths ["a.ts"],
          (allReadable q).isUnreadable = false))
    ∧ (PatternValidator.validate allReadable idPaths ["a.ts"] sc5).violations
        = List.replicate
            ((resolveFilePaths idPaths ["a.ts"]).countP
              fun q => (allReadable q).isReadable)
            (requiredFileNameViolation noMatchList sc5.severity) := by
  have h2 : ∀ q ∈ resolveFilePaths idPaths ["a.ts"], ∀ p ∈ noMatchList,
      p.test (idPaths.basename q) = false := by
    intro q hq p hp
    simp only [noMatchList, List.mem_singleton] at hp
    subst hp
    rfl
  have h3 : ∀ q ∈ resolveFilePaths idPaths ["a.ts"],
      (allReadable q).isUnreadable = false := fun q hq => rfl
  exact ⟨⟨rfl, h2, h3⟩,
    c5_required_filename_per_file allReadable idPaths noMatchList sc5 ["a.ts"]
      rfl h2 h3⟩

/-- Claim C6 counterexample: a scenario whose patterns object is present
with every rule list absent is scored 1 (pass), not the skip sentinel -1. -/
theorem c6_counterexample :
    (PatternValidator.validate allReadable idPaths [] sc6).score = 1
    ∧ ¬ (PatternValidator.validate allReadable idPaths [] sc6).score = -1 := by
  have h : (PatternValidator.validate allReadable idPaths [] sc6).score = 1 := by
    simp [PatternValidator.validate, sc6, mkScenario, resolveFilePaths,
      PatternValidator.validateGo, PatternValidator.calculateScore]
  exact ⟨h, by rw [h]; norm_num⟩

/-- Claim C6 (amended): the validator returns the skip sentinel -1 exactly
when the strategy has no patterns object at all; whenever a patterns object
is present — even with every rule list absent — the score is never -1, and
a present-but-all-absent configuration with no unreadable files yields no
violations and score 1 (pass), indistinguishable from perfect compliance. -/
theorem c6_skip_iff_patterns_absent (fsys : String → FileState)
    (pl : PathLib) (files : List String) (sc : TestScenario) :
    (sc.validationStrategy.patterns = none →
      PatternValidator.validate fsys pl files sc
        = { passed := true, score := -1, violations := []
            validatorType := "pattern" })
    ∧ (∀ pats, sc.validationStrategy.patterns = some pats →
        (PatternValidator.validate fsys pl files sc).score ≠ -1)
    ∧ (sc.validationStrategy.patterns = some {} →
        (∀ q ∈ resolveFilePaths pl files, (fsys q).isUnreadable = false) →
        (PatternValidator.validate fsys pl files sc).violations = []
          ∧ (PatternValidator.validate fsys pl files sc).score = 1) := by
  refine ⟨?_, ?_, ?_⟩
  · intro h
    simp [PatternValidator.validate, h]
  · intro pats h
    simp only [PatternValidator.validate, h]
    intro heq
    have := PatternValidator.validateGo_score_nonneg fsys pl pats
      (resolveFilePaths pl files) sc.severity (resolveFilePaths pl files) []
    rw [heq] at this
    linarith
  · intro h hrd
    simp only [PatternValidator.validate, h]
    rw [PatternValidator.validateGo_empty_pats fsys pl _ _ _ [] hrd]
    exact ⟨rfl, by simp [PatternValidator.calculateScore]⟩

/-- Witness for the amended C6 at concrete inputs: absent patterns skip
with -1; the present-but-empty configuration scores 1 and is not -1. -/
theorem c6_skip_iff_patterns_absent_witness :
    PatternValidator.validate allReadable idPaths []
        (mkScenario none .critical)
      = { passed := true, score := -1, violations := []
          validatorType := "pattern" }
    ∧ (PatternValidator.validate allReadable idPaths [] sc6).score ≠ -1
    ∧ ((PatternValidator.validate allReadable idPaths [] sc6).violations = []
        ∧ (PatternValidator.validate allReadable idPaths [] sc6).score = 1) := by
  refine ⟨(c6_skip_iff_patterns_absent allReadable idPaths []
      (mkScenario none .critical)).1 rfl,
    (c6_skip_iff_patterns_absent allReadable idPaths [] sc6).2.1 {} rfl,
    (c6_skip_iff_patterns_absent allReadable idPaths [] sc6).2.2 rfl ?_⟩
  intro q hq
  simp [resolveFilePaths] at hq

/-- Claim C10: if some listed file exists but reading it throws while all
files before it were read or skipped without error, `validate` returns
passed false, score 0, an error naming that file, and an empty violation
list — earlier-collected violations are discarded. -/
theorem c10_unreadable_aborts (fsys : String → FileState) (pl : PathLib)
    (pats : PatternValidation) (sc : TestScenario)
    (pre post : List String) (bad e : String)
    (hsc : sc.validationStrategy.patterns = some pats)
    (hpre : ∀ q ∈ resolveFilePaths pl pre, (fsys q).isUnreadable = false)
    (hbad : fsys (pl.resolve bad) = .unreadable e) :
    PatternValidator.validate fsys pl (pre ++ bad :: post) sc
      = { passed := false, score := 0, violations := []
          validatorType := "pattern"
          error := some ("Failed to read file " ++ pl.resolve bad ++ ": " ++ e) } := by
  simp only [PatternValidator.validate, hsc]
  have hsplit : resolveFilePaths pl (pre ++ bad :: post)
      = resolveFilePaths pl pre ++ pl.resolve bad :: resolveFilePaths pl post := by
    simp [resolveFilePaths]
  rw [hsplit]
  exact PatternValidator.validateGo_unreadable fsys pl pats _ _ _ _ _ hbad _ _ hpre

/-- Witness for C10 at a concrete input: the first file is readable and
matches a forbidden pattern, the second file's read throws; the returned
result still has an empty violation list and names the second file. -/
theorem c10_unreadable_aborts_witness :
    (sc10.validationStrategy.patterns = some pats10
      ∧ (∀ q ∈ resolveFilePaths idPaths ["good.ts"],
          (fsys10 q).isUnreadable = false)
      ∧ fsys10 (idPaths.resolve "locked.ts")
          = .unreadable "EACCES: permission denied")
    ∧ PatternValidator.validate fsys10 idPaths ["good.ts", "locked.ts"] sc10
        = { passed := false, score := 0, violations := []
            validatorType := "pattern"
            error := some ("Failed to read file " ++ idPaths.resolve "locked.ts"
              ++ ": " ++ "EACCES: permission denied") } := by
  have h2 : ∀ q ∈ resolveFilePaths idPaths ["good.ts"],
      (fsys10 q).isUnreadable = false := by
    intro q hq
    simp only [resolveFilePaths, idPaths, List.map_cons, List.map_nil, id,
      List.mem_singleton] at hq
    subst hq
    rfl
  have h3 : fsys10 (idPaths.resolve "locked.ts")
      = .unreadable "EACCES: permission denied" := rfl
  exact ⟨⟨rfl, h2, h3⟩,
    c10_unreadable_aborts fsys10 idPaths pats10 sc10 ["good.ts"] []
      "locked.ts" "EACCES: permission denied" rfl h2 h3⟩

end Benchmarks
